import Mathlib

/-!
Shallow embedding of the letterboxd2notion extraction and enrichment core
(`src/letterboxd2notion/parsers/__init__.py`, `rss_parser.py`, `html_parser.py`),
with theorems settling the specification claims.

Python strings are modelled as Lean `String`, machine integers as `Int`/`Nat`,
floats appearing as half-star ratings as `ℚ` (they are exact halves), `None`
as `Option.none`, and raised exceptions as the `Except` error channel.
All string manipulation is implemented structurally over `List Char` so that
concrete runs reduce inside the kernel.
-/

/-! ## Python-style string and number primitives -/

/-- `str.strip()` / whitespace trimming used by `get_text(strip=True)`. -/
def strTrim (s : String) : String :=
  String.mk (((s.toList.dropWhile Char.isWhitespace).reverse.dropWhile Char.isWhitespace).reverse)

/-- `pat in s` substring test (used for the CSS `[class*='rated-']` selector). -/
def strContains (s pat : String) : Bool :=
  s.toList.tails.any (fun t => pat.toList.isPrefixOf t)

/-- `s.startswith(pat)`. -/
def strStartsWith (s pat : String) : Bool :=
  pat.toList.isPrefixOf s.toList

/-- Python truthiness of a string: nonempty. -/
def strNonempty (s : String) : Bool :=
  !s.toList.isEmpty

/-- One left-to-right, non-overlapping replacement pass of `str.replace`,
with explicit fuel so the definition is structural. -/
def replaceAux (pat rep : List Char) : Nat → List Char → List Char
  | _, [] => []
  | 0, l => l
  | fuel+1, c :: rest =>
    if pat.isPrefixOf (c :: rest) then rep ++ replaceAux pat rep fuel (List.drop (pat.length - 1) rest)
    else c :: replaceAux pat rep fuel rest

/-- Python `s.replace(pat, rep)` (all occurrences, left to right). -/
def strReplace (s pat rep : String) : String :=
  match pat.toList with
  | [] => s
  | p :: ps => String.mk (replaceAux (p :: ps) rep.toList s.toList.length s.toList)

/-- Digit characters to their numeric value. -/
def natOfDigits (l : List Char) : Nat :=
  l.foldl (fun acc c => acc * 10 + (c.toNat - 48)) 0

/-- All characters are decimal digits and there is at least one. -/
def allDigits1 (l : List Char) : Bool :=
  (!l.isEmpty) && l.all Char.isDigit

/-- Parse a nonempty digit string. -/
def digitsToNat? (l : List Char) : Option Nat :=
  if allDigits1 l then some (natOfDigits l) else none

/-- Python `int(s)`: strip whitespace, optional sign, decimal digits;
`none` models the `ValueError` raised on any other input. -/
def pyInt? (s : String) : Option Int :=
  match (strTrim s).toList with
  | '+' :: rest => (digitsToNat? rest).map Int.ofNat
  | '-' :: rest => (digitsToNat? rest).map (fun n => -(n : Int))
  | rest => (digitsToNat? rest).map Int.ofNat

/-- Split a character list at the first `'.'`, if any. -/
def splitDot : List Char → Option (List Char × List Char)
  | [] => none
  | '.' :: rest => some ([], rest)
  | c :: rest => (splitDot rest).map (fun pq => (c :: pq.1, pq.2))

/-- Unsigned part of Python `float(s)` for plain decimal literals
(`"4"`, `"3.5"`, `".5"`, `"1."`); `none` models `ValueError`. -/
def pyFloatCore (cs : List Char) : Option ℚ :=
  match splitDot cs with
  | none => (digitsToNat? cs).map (fun n => (n : ℚ))
  | some (p, q) =>
    if (p.all Char.isDigit && q.all Char.isDigit) && (!p.isEmpty || !q.isEmpty) then
      some ((natOfDigits p : ℚ) + (natOfDigits q : ℚ) / (10 : ℚ) ^ q.length)
    else none

/-- Python `float(s)` restricted to the plain decimal forms that occur in the
feed's rating field; exponent / inf forms are out of the modelled input space. -/
def pyFloat? (s : String) : Option ℚ :=
  match (strTrim s).toList with
  | '+' :: rest => pyFloatCore rest
  | '-' :: rest => (pyFloatCore rest).map (fun r => -r)
  | rest => pyFloatCore rest

/-! ## Calendar dates (`datetime.date`) -/

/-- A validated calendar date, as produced by `datetime.date(y, m, d)`. -/
structure PyDate where
  year : Nat
  month : Nat
  day : Nat
deriving DecidableEq

/-- Gregorian leap-year rule. -/
def isLeap (y : Nat) : Bool :=
  y % 4 = 0 && (y % 100 != 0 || y % 400 = 0)

/-- Days in a month of a given year. -/
def daysInMonth (y m : Nat) : Nat :=
  if m = 2 then (if isLeap y then 29 else 28)
  else if m = 4 || m = 6 || m = 9 || m = 11 then 30
  else 31

/-- `datetime.date(y, m, d)`: `none` models the `ValueError` on an invalid
calendar date (Python requires `1 <= y <= 9999`). -/
def mkDate (y m d : Nat) : Option PyDate :=
  if (1 ≤ y && y ≤ 9999) && (1 ≤ m && m ≤ 12) && (1 ≤ d && d ≤ daysInMonth y m) then
    some ⟨y, m, d⟩
  else none

/-- Split a character list on a separator character. -/
def splitOnChar (sep : Char) : List Char → List (List Char)
  | [] => [[]]
  | c :: rest =>
    let r := splitOnChar sep rest
    if c = sep then [] :: r
    else match r with
      | [] => [[c]]
      | g :: gs => (c :: g) :: gs

/-- `date.fromisoformat` on the feed's `YYYY-MM-DD` watched-date strings;
`none` models the `ValueError` on a malformed string or invalid date. -/
def isoDate? (s : String) : Option PyDate :=
  match splitOnChar '-' s.toList with
  | [ys, ms, ds] =>
    if (ys.length = 4 && allDigits1 ys) && ((ms.length = 2 && allDigits1 ms) && (ds.length = 2 && allDigits1 ds)) then
      mkDate (natOfDigits ys) (natOfDigits ms) (natOfDigits ds)
    else none
  | _ => none

/-! ## The Film record

Modelled from the spec: `letterboxd2notion/models.py` is not among the given
source files; the field set is fixed by the spec's §3 data model and by the
`Film(...)` constructor calls and `model_copy` updates in the parsers. -/

structure Film where
  letterboxd_id : String
  tmdb_id : Option Int
  title : String
  year : Int
  letterboxd_url : String
  rating : Option ℚ
  watched_date : Option PyDate
  rewatch : Bool
  review : Option String
  backdrop_url : Option String := none
  poster_url : Option String := none
deriving DecidableEq

/-- Errors escaping the two Letterboxd fetch/parse entry points.
`rateLimit` embeds `RateLimitError`, `parseError` embeds `ParseError`,
`httpStatus` embeds the `raise_for_status` HTTP error, and `valueError`
embeds an uncaught Python `ValueError` (carrying the offending text). -/
inductive FetchError where
  | rateLimit (retry_after : Int)
  | httpStatus (code : Nat)
  | parseError (msg : String)
  | valueError (msg : String)
deriving DecidableEq

/-- Modelled from the spec: `letterboxd2notion/exceptions.py` is not among the
given source files. `RateLimitError()` raised without an argument by the diary
fetcher carries a default retry-after duration; the feed fetcher's own
explicit fallback of 60 seconds is used as that default. -/
def defaultRetryAfter : Int := 60

/-- `TMDBError` raised by the enrichment engine; carries the formatted
message (which embeds the HTTP status code). -/
structure TMDBError where
  message : String
deriving DecidableEq

/-- A fetched HTTP response as handed to the core: status code, headers and
an already-decoded body. -/
structure HResp (α : Type) where
  status_code : Nat
  headers : List (String × String)
  body : α

/-- Case-exact header lookup (`response.headers.get(k)`). -/
def headerGet (hs : List (String × String)) (k : String) : Option String :=
  (hs.find? (fun p => p.1 == k)).map (·.2)

/-! ## HTML node model (BeautifulSoup tags)

A parsed markup tree: element tags carry their name, plain string-valued
attributes, the multi-valued `class` attribute (BeautifulSoup returns it as a
list, or `None` when absent), and children; text nodes carry their string. -/

inductive Node where
  | tag (name : String) (attrs : List (String × String)) (classes : Option (List String)) (children : List Node)
  | text (s : String)

mutual

/-- A node together with all its descendants, in document (preorder) order. -/
def allNodes : Node → List Node
  | .text s => [.text s]
  | .tag nm a c ch => .tag nm a c ch :: allNodesList ch

/-- Concatenated preorder listings of a forest. -/
def allNodesList : List Node → List Node
  | [] => []
  | n :: r => allNodes n ++ allNodesList r

end

/-- Children of a node. -/
def Node.childrenOf : Node → List Node
  | .tag _ _ _ ch => ch
  | .text _ => []

/-- All strict descendants of a node, in document order (the search space of
BeautifulSoup's `select` / `find` on that node). -/
def descOf (n : Node) : List Node := allNodesList n.childrenOf

/-- `tag.get(key)` for a plain attribute. -/
def Node.attrOf : Node → String → Option String
  | .tag _ attrs _ _, k => ((attrs.find? (fun p => p.1 == k)).map (·.2))
  | .text _, _ => none

/-- `tag.get("class")`: the multi-valued class list, `none` when absent. -/
def Node.classesOf : Node → Option (List String)
  | .tag _ _ c _ => c
  | .text _ => none

/-- Membership of a class token (a CSS `.cls` selector component). -/
def hasClass (n : Node) (c : String) : Bool :=
  match n.classesOf with
  | some l => l.contains c
  | none => false

/-- The serialized class attribute value, as CSS `[class*=...]` matches it. -/
def classAttrValue (n : Node) : String :=
  match n.classesOf with
  | some l => String.mk ((l.map String.toList).intersperse [' ']).flatten
  | none => ""

/-- Element named `nm`. -/
def isNamed (nm : String) : Node → Bool
  | .tag n _ _ _ => n == nm
  | .text _ => false

/-- `tr.diary-entry-row` (the diary row selector). -/
def isDiaryRow (n : Node) : Bool :=
  isNamed "tr" n && hasClass n "diary-entry-row"

/-- `div.react-component[data-item-slug]` (the film metadata block). -/
def isPosterDiv (n : Node) : Bool :=
  (isNamed "div" n && hasClass n "react-component") && (n.attrOf "data-item-slug").isSome

/-- `span.rating[class*='rated-']` (the rating span selector). -/
def isRatingSpan (n : Node) : Bool :=
  (isNamed "span" n && hasClass n "rating") && strContains (classAttrValue n) "rated-"

/-- `td.col-rewatch` (the rewatch cell selector). -/
def isRewatchTd (n : Node) : Bool :=
  isNamed "td" n && hasClass n "col-rewatch"

/-- `a.daydate` (the watched-date link selector). -/
def isDaydateLink (n : Node) : Bool :=
  isNamed "a" n && hasClass n "daydate"

/-- `row.select_one(sel)`: first matching descendant in document order. -/
def selectOne (sel : Node → Bool) (n : Node) : Option Node :=
  (descOf n).find? sel

/-- `row.find("img")` as a Boolean: some descendant is an `img` element. -/
def hasImg (n : Node) : Bool :=
  (descOf n).any (isNamed "img")

/-- `node.get_text(strip=True)`: every text fragment of the subtree stripped
of surrounding whitespace and concatenated in document order. -/
def getTextStrip (n : Node) : String :=
  String.mk (((allNodes n).filterMap (fun m => match m with
    | .text s => some (strTrim s).toList
    | .tag _ _ _ _ => none)).flatten)

/-! ## Diary page parser (`html_parser.py`) -/

/-- Body of the class loop in `_extract_rating`: a class starting with
`"rated-"` whose remainder (after removing every `"rated-"` occurrence)
parses as an integer; `none` both for non-matching classes and for the
`ValueError` swallowed by `try/except: pass`. -/
def ratedValue? (cls : String) : Option Int :=
  if strStartsWith cls "rated-" then pyInt? (strReplace cls "rated-" "") else none

/-- The `for cls in classes` loop with its early `return`: the first class
token yielding a parsed half-star count. -/
def firstRated (classes : List String) : Option Int :=
  classes.findSome? ratedValue?

/-- `_extract_rating(row)`: locate `span.rating[class*='rated-']` and convert
its first parsable `rated-<n>` token to `n / 2` stars. -/
def _extract_rating (row : Node) : Option ℚ :=
  match selectOne isRatingSpan row with
  | some span =>
    match span.classesOf with
    | some classes => (firstRated classes).map (fun n => (n : ℚ) / 2)
    | none => none
  | none => none

/-- Greedy `\d{1,2}` followed by a literal `'/'`: two digits if the next
character is `'/'`, else one digit followed by `'/'`. Returns the value and
the characters after the slash. -/
def take12Slash : List Char → Option (Nat × List Char)
  | d1 :: d2 :: '/' :: rest =>
    if d1.isDigit && d2.isDigit then some (natOfDigits [d1, d2], rest)
    else if d1.isDigit && d2 = '/' then none  -- unreachable shape
    else none
  | d1 :: '/' :: rest => if d1.isDigit then some (natOfDigits [d1], rest) else none
  | _ => none

/-- Trailing greedy `\d{1,2}` with nothing required after it. -/
def take12End : List Char → Option Nat
  | d1 :: d2 :: _ => if d1.isDigit && d2.isDigit then some (natOfDigits [d1, d2])
    else if d1.isDigit then some (natOfDigits [d1]) else none
  | [d1] => if d1.isDigit then some (natOfDigits [d1]) else none
  | [] => none

/-- Attempt the tail of `/for/(\d{4})/(\d{1,2})/(\d{1,2})` at one position
(after the literal `/for/`). -/
def matchForTail : List Char → Option (Nat × Nat × Nat)
  | y1 :: y2 :: y3 :: y4 :: '/' :: rest =>
    if [y1, y2, y3, y4].all Char.isDigit then
      match take12Slash rest with
      | some (m, rest2) => (take12End rest2).map (fun d => (natOfDigits [y1, y2, y3, y4], m, d))
      | none => none
    else none
  | _ => none

/-- `re.search(r"/for/(\d{4})/(\d{1,2})/(\d{1,2})", href)`: leftmost position
where the pattern matches. -/
def scanFor : List Char → Option (Nat × Nat × Nat)
  | [] => none
  | c :: rest =>
    match (if ("/for/".toList).isPrefixOf (c :: rest) then matchForTail (rest.drop 4) else none) with
    | some g => some g
    | none => scanFor rest

/-- `_extract_watched_date(row)`: date from the `a.daydate` link's href path
`/for/<year>/<month>/<day>`; any parse or calendar failure yields `none`. -/
def _extract_watched_date (row : Node) : Option PyDate :=
  match selectOne isDaydateLink row with
  | none => none
  | some day_link =>
    let href := (day_link.attrOf "href").getD ""
    match scanFor href.toList with
    | some (y, m, d) => mkDate y m d
    | none => none

/-- Year and cleaned title from a display name with the literal suffix
`"<Title> (<YYYY>)"`: the year match of `re.search(r"\((\d{4})\)$", title)`
and the cleaned result of `re.sub(r"\s*\(\d{4}\)$", "", title)`. -/
def splitTitleYear (title : String) : Int × String :=
  match title.toList.reverse with
  | ')' :: d1 :: d2 :: d3 :: d4 :: '(' :: rest =>
    if [d4, d3, d2, d1].all Char.isDigit then
      (Int.ofNat (natOfDigits [d4, d3, d2, d1]),
       String.mk ((rest.dropWhile Char.isWhitespace).reverse))
    else (0, title)
  | _ => (0, title)

/-- `_parse_diary_row(row)`: parse one diary table row, `none` when the row
is skipped. -/
def _parse_diary_row (row : Node) : Option Film :=
  match row.attrOf "data-viewing-id" with
  | none => none
  | some viewing_id =>
    if viewing_id = "" then none
    else match selectOne isPosterDiv row with
    | none => none
    | some poster_div =>
      let title := (poster_div.attrOf "data-item-name").getD ""
      let slug := (poster_div.attrOf "data-item-slug").getD ""
      if title = "" || slug = "" then none
      else
        let yc := splitTitleYear title
        let letterboxd_url := "https://letterboxd.com/film/" ++ slug ++ "/"
        let rating := _extract_rating row
        let watched_date := _extract_watched_date row
        let rewatch :=
          match selectOne isRewatchTd row with
          | some td =>
            match td.classesOf with
            | some rewatch_classes => !rewatch_classes.contains "icon-status-off"
            | none => false
          | none => false
        some
          { letterboxd_id := "letterboxd-viewing-" ++ viewing_id
            tmdb_id := none
            title := yc.2
            year := yc.1
            letterboxd_url := letterboxd_url
            rating := rating
            watched_date := watched_date
            rewatch := rewatch
            review := none }

/-- `parse_diary_page`: one fetched diary page to `(films, has_more)`;
429 raises the rate-limit condition, other 4xx/5xx raise via
`raise_for_status`, and `has_more` is the non-emptiness of the parsed list. -/
def parse_diary_page (resp : HResp Node) : Except FetchError (List Film × Bool) :=
  if resp.status_code = 429 then .error (.rateLimit defaultRetryAfter)
  else if 400 ≤ resp.status_code then .error (.httpStatus resp.status_code)
  else
    let films := ((descOf resp.body).filter isDiaryRow).filterMap _parse_diary_row
    .ok (films, decide (0 < films.length))

/-! ## Feed parser (`rss_parser.py`)

An RSS `<item>` is modelled by the outcome of each `item.find(...)` lookup the
parser performs: `none` when the element is absent, `some none` when present
with no text, `some (some s)` when present with text `s`. The `description`
element's embedded HTML is carried already parsed into nodes (the
`BeautifulSoup(desc, "lxml")` step). -/

structure RSSItem where
  guid : Option (Option String)
  filmTitle : Option (Option String)
  filmYear : Option (Option String)
  link : Option (Option String)
  memberRating : Option (Option String)
  watchedDate : Option (Option String)
  rewatch : Option (Option String)
  movieId : Option (Option String)
  description : Option (Option (List Node))

/-- The fixed spoiler-warning preamble dropped by the review extractor. -/
def spoilerWarning : String := "This review may contain spoilers"

/-- `soup.find_all("p")`: every `p` element of the description, in document
order. -/
def findAllP (nodes : List Node) : List Node :=
  (allNodesList nodes).filter (isNamed "p")

/-- `"\n\n".join(parts)`. -/
def joinParts : List String → String
  | [] => ""
  | [t] => t
  | t :: rest => t ++ "\n\n" ++ joinParts rest

/-- The paragraph loop of `_extract_review_from_description`: skip image-only
paragraphs, skip spoiler-warning paragraphs, keep nonempty visible texts. -/
def reviewLoop : List Node → List String
  | [] => []
  | p :: rest =>
    if hasImg p && !strNonempty (getTextStrip p) then reviewLoop rest
    else
      let text := getTextStrip p
      if strStartsWith text spoilerWarning then reviewLoop rest
      else if !strNonempty text then reviewLoop rest
      else text :: reviewLoop rest

/-- `_extract_review_from_description(item)`: clean multi-paragraph review
text from the description's embedded HTML, `none` when nothing qualifies. -/
def _extract_review_from_description (item : RSSItem) : Option String :=
  match item.description with
  | none => none
  | some none => none
  | some (some nodes) =>
    let review_parts := reviewLoop (findAllP nodes)
    if review_parts.isEmpty then none else some (joinParts review_parts)

/-- `_parse_rss_item(item)`: one feed item to a Film; `.ok none` models the
silent skip (`return None`), `.error` an exception escaping the item
(uncaught `ValueError` from `int`, `float` or `date.fromisoformat`). -/
def _parse_rss_item (item : RSSItem) : Except FetchError (Option Film) :=
  match item.guid with
  | none | some none => .ok none
  | some (some letterboxd_id) =>
  match item.filmTitle with
  | none | some none => .ok none
  | some (some title) =>
  match item.filmYear with
  | none | some none => .ok none
  | some (some ytext) =>
  match pyInt? ytext with
  | none => .error (.valueError ytext)
  | some year =>
  let letterboxd_url :=
    match item.link with
    | some (some l) => l
    | _ => ""
  let ratingE : Except FetchError (Option ℚ) :=
    match item.memberRating with
    | some (some rtext) =>
      if rtext = "" then .ok none
      else match pyFloat? rtext with
        | some r => .ok (some r)
        | none => .error (.valueError rtext)
    | _ => .ok none
  match ratingE with
  | .error e => .error e
  | .ok rating =>
  let watchedE : Except FetchError (Option PyDate) :=
    match item.watchedDate with
    | some (some dtext) =>
      if dtext = "" then .ok none
      else match isoDate? dtext with
        | some d => .ok (some d)
        | none => .error (.valueError dtext)
    | _ => .ok none
  match watchedE with
  | .error e => .error e
  | .ok watched_date =>
  let rewatch :=
    match item.rewatch with
    | some (some s) => s == "Yes"
    | _ => false
  let tmdbE : Except FetchError (Option Int) :=
    match item.movieId with
    | some (some ttext) =>
      if ttext = "" then .ok none
      else match pyInt? ttext with
        | some n => .ok (some n)
        | none => .error (.valueError ttext)
    | _ => .ok none
  match tmdbE with
  | .error e => .error e
  | .ok tmdb_id =>
  .ok (some
    { letterboxd_id := letterboxd_id
      tmdb_id := tmdb_id
      title := title
      year := year
      letterboxd_url := letterboxd_url
      rating := rating
      watched_date := watched_date
      rewatch := rewatch
      review := _extract_review_from_description item })

/-- The `for item in root.findall(".//item")` loop: collect parsed films,
letting any exception escape. -/
def parseItems : List RSSItem → Except FetchError (List Film)
  | [] => .ok []
  | i :: rest =>
    match _parse_rss_item i with
    | .error e => .error e
    | .ok none => parseItems rest
    | .ok (some f) =>
      match parseItems rest with
      | .error e => .error e
      | .ok fs => .ok (f :: fs)

/-- `parse_rss_feed`: the fetched feed response to Films. The body is the
outcome of `ET.fromstring`: `.error` when the document is not valid XML
(raised as `ParseError`), `.ok items` otherwise. 429 raises the rate-limit
condition carrying the `Retry-After` header (default 60), other 4xx/5xx
raise via `raise_for_status`. -/
def parse_rss_feed (resp : HResp (Except String (List RSSItem))) : Except FetchError (List Film) :=
  if resp.status_code = 429 then
    match headerGet resp.headers "Retry-After" with
    | none => .error (.rateLimit 60)
    | some s =>
      match pyInt? s with
      | some n => .error (.rateLimit n)
      | none => .error (.valueError s)
  else if 400 ≤ resp.status_code then .error (.httpStatus resp.status_code)
  else
    match resp.body with
    | .error e => .error (.parseError ("Failed to parse RSS XML: " ++ e))
    | .ok items => parseItems items

/-! ## Enrichment engine (`parsers/__init__.py`) -/

/-- Fixed base of the image URL template. -/
def TMDB_IMAGE_BASE : String := "https://image.tmdb.org/t/p"

/-- One movie record of the TMDB API (`movie_data.get(...)` fields). -/
structure MovieData where
  backdrop_path : Option String
  poster_path : Option String
  id : Option Int
deriving DecidableEq

/-- The TMDB endpoints as deterministic response functions of the request
parameters the code sends: `movieById` for `GET /movie/{id}` and `search`
for `GET /search/movie` with its optional year parameter. -/
structure TMDBClient where
  movieById : Int → String → HResp MovieData
  search : String → Option Int → String → HResp (List MovieData)

/-- `_fetch_movie_by_id`: 404 is a valid empty result, any other non-200
status is a `TMDBError` carrying the status code. -/
def _fetch_movie_by_id (client : TMDBClient) (tmdb_id : Int) (api_key : String) :
    Except TMDBError (Option MovieData) :=
  let response := client.movieById tmdb_id api_key
  if response.status_code = 404 then .ok none
  else if response.status_code ≠ 200 then
    .error ⟨"TMDB API error: " ++ toString response.status_code⟩
  else .ok (some response.body)

/-- The `if year: params["year"] = str(year)` step: the year parameter is
sent only when `year` is truthy (neither `None` nor `0`). -/
def yearParamOpt : Option Int → Option Int
  | none => none
  | some y => if y = 0 then none else some y

/-- `_search_movie`: the year parameter is sent only when `year` is truthy;
any non-200 status is a `TMDBError`; the first result wins, an empty result
list is `None`. -/
def _search_movie (client : TMDBClient) (title : String) (year : Option Int) (api_key : String) :
    Except TMDBError (Option MovieData) :=
  let response := client.search title (yearParamOpt year) api_key
  if response.status_code ≠ 200 then
    .error ⟨"TMDB search error: " ++ toString response.status_code⟩
  else .ok response.body.head?

/-- The image URL built for a relative path by
`f"{TMDB_IMAGE_BASE}/w500{path}" if path else None` (Python truthiness:
both `None` and `""` give `None`). -/
def imageURL (path : Option String) : Option String :=
  match path with
  | some p => if p = "" then none else some (TMDB_IMAGE_BASE ++ "/w500" ++ p)
  | none => none

/-- The `film.model_copy(update={...})` step of `enrich_film_with_tmdb`:
both URL fields are built from `poster_path` (the code never uses the
`backdrop_path` it extracted), and `tmdb_id` is taken from the result only
when the film's own `tmdb_id` is `None`. -/
def applyMovie (film : Film) (movie_data : MovieData) : Film :=
  { film with
    backdrop_url := imageURL movie_data.poster_path
    poster_url := imageURL movie_data.poster_path
    tmdb_id := match film.tmdb_id with
      | none => movie_data.id
      | some t => some t }

/-- The branch select of `enrich_film_with_tmdb`: `if film.tmdb_id:` is
Python truthiness, so both `None` and `0` fall to the search branch. -/
def resolveMovie (client : TMDBClient) (film : Film) (api_key : String) :
    Except TMDBError (Option MovieData) :=
  match film.tmdb_id with
  | some i =>
    if i = 0 then _search_movie client film.title (some film.year) api_key
    else _fetch_movie_by_id client i api_key
  | none => _search_movie client film.title (some film.year) api_key

/-- `enrich_film_with_tmdb(client, film, api_key)`. -/
def enrich_film_with_tmdb (client : TMDBClient) (film : Film) (api_key : String) :
    Except TMDBError Film :=
  match resolveMovie client film api_key with
  | .error e => .error e
  | .ok none => .ok film
  | .ok (some movie_data) => .ok (applyMovie film movie_data)

/-! ## Spec-side helpers and concrete fixtures -/

/-- The year parameter `_search_movie` sends for a film's year (truthiness:
year `0` disables the filter). -/
def yearParam (y : Int) : Option Int :=
  yearParamOpt (some y)

/-- API consistency: fetching a movie by the id that a search result carried
returns that same movie record with success. This is the determinism
assumption under which a search-resolved film can be re-enriched by ID. -/
def TMDBClient.searchConsistent (client : TMDBClient) (key : String) : Prop :=
  ∀ q y m i, (client.search q y key).status_code = 200 →
    (client.search q y key).body.head? = some m → m.id = some i → i ≠ 0 →
    (client.movieById i key).status_code = 200 ∧ (client.movieById i key).body = m

/-- Visible texts of the paragraphs that qualify for the review: nonempty
after stripping markup and not starting with the spoiler preamble. -/
def qualifyingTexts (nodes : List Node) : List String :=
  ((findAllP nodes).map getTextStrip).filter
    (fun t => strNonempty t && !strStartsWith t spoilerWarning)

/-- A movie record with a backdrop path but no poster path. -/
def mBackdropOnly : MovieData := ⟨some "/b.jpg", none, some 7⟩

/-- A movie record with a poster path but no backdrop path. -/
def mPosterOnly : MovieData := ⟨none, some "/p.jpg", some 7⟩

/-- Client whose ID lookup returns `mBackdropOnly` with success. -/
def clientBackdrop : TMDBClient :=
  ⟨fun _ _ => ⟨200, [], mBackdropOnly⟩, fun _ _ _ => ⟨200, [], []⟩⟩

/-- Client whose ID lookup returns `mPosterOnly` with success. -/
def clientPoster : TMDBClient :=
  ⟨fun _ _ => ⟨200, [], mPosterOnly⟩, fun _ _ _ => ⟨200, [], []⟩⟩

/-- Client whose search endpoint answers 404 with an empty result list. -/
def clientSearch404 : TMDBClient :=
  ⟨fun _ _ => ⟨200, [], mPosterOnly⟩, fun _ _ _ => ⟨404, [], []⟩⟩

/-- Client whose ID lookup answers 404. -/
def clientById404 : TMDBClient :=
  ⟨fun _ _ => ⟨404, [], mPosterOnly⟩, fun _ _ _ => ⟨200, [], []⟩⟩

/-- A film that already carries a feed-asserted catalog ID. -/
def film7 : Film :=
  { letterboxd_id := "letterboxd-review-42"
    tmdb_id := some 7
    title := "Arrival"
    year := 2016
    letterboxd_url := "https://letterboxd.com/u/film/arrival/"
    rating := none
    watched_date := none
    rewatch := false
    review := none }

/-- A film with no catalog ID (search branch). -/
def filmNoId : Film :=
  { letterboxd_id := "letterboxd-viewing-99"
    tmdb_id := none
    title := "Arrival"
    year := 2016
    letterboxd_url := "https://letterboxd.com/u/film/arrival/"
    rating := none
    watched_date := none
    rewatch := false
    review := none }

/-- Rating span carrying the `rated-7` token. -/
def spanRated7 : Node := .tag "span" [] (some ["rating", "rated-7"]) []

/-- A row whose rating span carries `rated-7`. -/
def rowRated7 : Node := .tag "tr" [] none [spanRated7]

/-- A row whose rating span carries `rated-0`. -/
def rowRated0 : Node := .tag "tr" [] none [.tag "span" [] (some ["rating", "rated-0"]) []]

/-- A complete, well-formed diary row whose rewatch cell carries neither the
`icon-rewatch` marker nor the `icon-status-off` marker. -/
def rowNoMarkers : Node :=
  .tag "tr" [("data-viewing-id", "7")] (some ["diary-entry-row"])
    [ .tag "div" [("data-item-name", "Home Alone (1990)"), ("data-item-slug", "home-alone")]
        (some ["react-component"]) []
    , .tag "td" [] (some ["col-rewatch"]) [] ]

/-- A complete diary row: film metadata, `rated-7` rating span, watched-date
link, rewatch cell with the not-rewatched marker. -/
def rowFull : Node :=
  .tag "tr" [("data-viewing-id", "99")] (some ["diary-entry-row"])
    [ .tag "td" [] (some ["td-film"])
        [ .tag "div" [("data-item-name", "Home Alone (1990)"), ("data-item-slug", "home-alone")]
            (some ["react-component"]) [] ]
    , .tag "td" [] (some ["td-rating"]) [spanRated7]
    , .tag "td" [] (some ["col-rewatch", "icon-status-off"]) []
    , .tag "td" [] (some ["td-day"])
        [ .tag "a" [("href", "/u/diary/films/for/2025/12/26/")] (some ["daydate"]) [] ] ]

/-- The Film parsed from `rowFull`. -/
def filmFull : Film :=
  { letterboxd_id := "letterboxd-viewing-99"
    tmdb_id := none
    title := "Home Alone"
    year := 1990
    letterboxd_url := "https://letterboxd.com/film/home-alone/"
    rating := some (((7 : Int) : ℚ) / 2)
    watched_date := some ⟨2025, 12, 26⟩
    rewatch := false
    review := none }

/-- A 200 diary page response containing one well-formed row. -/
def respOneRow : HResp Node := ⟨200, [], .tag "html" [] none [rowFull]⟩

/-- A 200 diary page response with no rows. -/
def respEmptyPage : HResp Node := ⟨200, [], .tag "html" [] none []⟩

/-- A 429 diary page response. -/
def respDiary429 : HResp Node := ⟨429, [], .tag "html" [] none []⟩

/-- A 429 diary page response that does carry `Retry-After: 120`. -/
def respDiary429Header : HResp Node := ⟨429, [("Retry-After", "120")], .tag "html" [] none []⟩

/-- Description HTML: an image-only paragraph followed by a text paragraph. -/
def descArrival : List Node :=
  [ .tag "p" [] none [.tag "img" [("src", "poster.jpg")] none []]
  , .tag "p" [] none [.text "A quiet masterpiece."] ]

/-- A fully populated feed item. -/
def itemArrival : RSSItem :=
  ⟨some (some "letterboxd-review-42"), some (some "Arrival"), some (some "2016"),
   some (some "https://letterboxd.com/u/film/arrival/"), some (some "4.5"),
   some (some "2016-11-11"), some (some "No"), some (some "329865"), some (some descArrival)⟩

/-- A feed item whose rating value is not a number. -/
def itemBadRating : RSSItem :=
  ⟨some (some "letterboxd-review-1"), some (some "Arrival"), some (some "2016"),
   none, some (some "abc"), none, none, none, none⟩

/-- A 200 feed response containing only the malformed-rating item. -/
def respBadRating : HResp (Except String (List RSSItem)) := ⟨200, [], .ok [itemBadRating]⟩

/-- A 429 feed response carrying `Retry-After: 120`. -/
def respFeed429 : HResp (Except String (List RSSItem)) := ⟨429, [("Retry-After", "120")], .ok []⟩

/-! ## Claim theorems -/

/-- Claim C1 (code behavior at the failing input): when the movie result has a
backdrop path but no poster path, the enriched film's `backdrop_url` is absent
(the claim demands it be present, built from the backdrop path); when the
result has a poster path but no backdrop path, `backdrop_url` is present,
built from the poster path (the claim demands it be absent). Both URL fields
are always built from `poster_path`. -/
theorem enrich_backdrop_built_from_poster_path :
    (mBackdropOnly.backdrop_path = some "/b.jpg" ∧
      enrich_film_with_tmdb clientBackdrop film7 "k" =
        .ok { film7 with backdrop_url := none, poster_url := none, tmdb_id := some 7 }) ∧
    (mPosterOnly.backdrop_path = none ∧
      enrich_film_with_tmdb clientPoster film7 "k" =
        .ok { film7 with
                backdrop_url := some "https://image.tmdb.org/t/p/w500/p.jpg"
                poster_url := some "https://image.tmdb.org/t/p/w500/p.jpg"
                tmdb_id := some 7 }) :=
  ⟨⟨rfl, rfl⟩, ⟨rfl, rfl⟩⟩

/-- Claim C2: enrichment passes every non-artwork, non-ID field through
unchanged, and never changes a `tmdb_id` that was already present. -/
theorem enrich_frame_and_source_priority (client : TMDBClient) (film f2 : Film) (key : String)
    (h : enrich_film_with_tmdb client film key = .ok f2) :
    f2.letterboxd_id = film.letterboxd_id ∧ f2.title = film.title ∧ f2.year = film.year ∧
    f2.letterboxd_url = film.letterboxd_url ∧ f2.rating = film.rating ∧
    f2.watched_date = film.watched_date ∧ f2.rewatch = film.rewatch ∧
    f2.review = film.review ∧ ∀ t, film.tmdb_id = some t → f2.tmdb_id = some t := by
  unfold enrich_film_with_tmdb at h
  cases hr : resolveMovie client film key with
  | error e => rw [hr] at h; exact absurd h (by simp)
  | ok md =>
    rw [hr] at h
    cases md with
    | none =>
      simp only [Except.ok.injEq] at h
      subst h
      simp
    | some m =>
      simp only [Except.ok.injEq] at h
      subst h
      refine ⟨rfl, rfl, rfl, rfl, rfl, rfl, rfl, rfl, ?_⟩
      intro t ht
      simp [applyMovie, ht]

/-- Witness for C2: a film with a source-asserted `tmdb_id = 7` keeps it
through an enrichment whose lookup succeeded. -/
theorem enrich_frame_and_source_priority_witness :
    film7.tmdb_id = some 7 ∧ (applyMovie film7 mPosterOnly).tmdb_id = some 7 :=
  ⟨rfl, (enrich_frame_and_source_priority clientPoster film7 (applyMovie film7 mPosterOnly) "k"
    rfl).2.2.2.2.2.2.2.2 7 rfl⟩

/-- Re-applying the same movie record to an already enriched film changes
nothing. -/
theorem applyMovie_idem (f : Film) (m : MovieData) :
    applyMovie (applyMovie f m) m = applyMovie f m := by
  cases h : f.tmdb_id <;> cases hm : m.id <;> simp [applyMovie, h, hm]

/-- `_search_movie` succeeding with a result pins the response status and
first result. -/
theorem _search_movie_ok_some (client : TMDBClient) (q : String) (y : Option Int) (key : String)
    (m : MovieData) (h : _search_movie client q y key = .ok (some m)) :
    (client.search q (yearParamOpt y) key).status_code = 200 ∧
    (client.search q (yearParamOpt y) key).body.head? = some m := by
  unfold _search_movie at h
  by_cases hs : (client.search q (yearParamOpt y) key).status_code = 200
  · simp only [hs, ne_eq, not_true_eq_false, if_neg, if_false] at h
    exact ⟨hs, by simpa using h⟩
  · simp [hs] at h

/-- `_fetch_movie_by_id` succeeding with a result pins the response status
and body. -/
theorem _fetch_movie_by_id_ok_some (client : TMDBClient) (i : Int) (key : String)
    (m : MovieData) (h : _fetch_movie_by_id client i key = .ok (some m)) :
    (client.movieById i key).status_code = 200 ∧ (client.movieById i key).body = m := by
  unfold _fetch_movie_by_id at h
  by_cases h404 : (client.movieById i key).status_code = 404
  · simp [h404] at h
  · by_cases h200 : (client.movieById i key).status_code = 200
    · simp only [h404, if_false, h200, ne_eq, not_true_eq_false, if_neg, Except.ok.injEq,
        Option.some.injEq, if_neg] at h
      exact ⟨h200, by simpa using h⟩
    · simp [h404, h200] at h

/-- Claim C3: enrichment is idempotent once the first call resolved a catalog
ID, under the client-consistency assumption that looking a search result up
by its own id returns the same record. -/
theorem enrich_idempotent (client : TMDBClient) (film f1 : Film) (key : String)
    (h1 : enrich_film_with_tmdb client film key = .ok f1)
    (h2 : f1.tmdb_id.isSome)
    (hc : client.searchConsistent key) :
    enrich_film_with_tmdb client f1 key = .ok f1 := by
  unfold enrich_film_with_tmdb at h1 ⊢
  cases hr : resolveMovie client film key with
  | error e => rw [hr] at h1; cases h1
  | ok md =>
    rw [hr] at h1
    cases md with
    | none =>
      injection h1 with h
      subst h
      rw [hr]
    | some m =>
      injection h1 with h
      subst h
      cases hft : film.tmdb_id with
      | none =>
        unfold resolveMovie at hr
        rw [hft] at hr
        obtain ⟨hs, hhead⟩ := _search_movie_ok_some client film.title (some film.year) key m hr
        have htm : (applyMovie film m).tmdb_id = m.id := by simp [applyMovie, hft]
        rw [htm] at h2
        obtain ⟨i, hi⟩ := Option.isSome_iff_exists.mp h2
        by_cases hi0 : i = 0
        · have hres : resolveMovie client (applyMovie film m) key = .ok (some m) := by
            simp only [resolveMovie, htm, hi, if_pos hi0]
            exact hr
          simp only [hres]
          rw [applyMovie_idem]
        · obtain ⟨hm200, hmbody⟩ := hc film.title (yearParamOpt (some film.year)) m i hs hhead hi hi0
          have hres : resolveMovie client (applyMovie film m) key = .ok (some m) := by
            simp only [resolveMovie, htm, hi, if_neg hi0]
            simp [_fetch_movie_by_id, hm200, hmbody]
          simp only [hres]
          rw [applyMovie_idem]
      | some t =>
        have htm : (applyMovie film m).tmdb_id = some t := by simp [applyMovie, hft]
        simp only [resolveMovie, hft] at hr
        by_cases ht0 : t = 0
        · rw [if_pos ht0] at hr
          have hres : resolveMovie client (applyMovie film m) key = .ok (some m) := by
            simp only [resolveMovie, htm, if_pos ht0]
            exact hr
          simp only [hres]
          rw [applyMovie_idem]
        · rw [if_neg ht0] at hr
          obtain ⟨hm200, hmbody⟩ := _fetch_movie_by_id_ok_some client t key m hr
          have hres : resolveMovie client (applyMovie film m) key = .ok (some m) := by
            simp only [resolveMovie, htm, if_neg ht0]
            simp [_fetch_movie_by_id, hm200, hmbody]
          simp only [hres]
          rw [applyMovie_idem]

/-- Witness for C3: a film with a known catalog ID is enriched to the same
record by a second enrichment against the same (vacuously search-consistent)
client. -/
theorem enrich_idempotent_witness :
    enrich_film_with_tmdb clientPoster (applyMovie film7 mPosterOnly) "k" =
      .ok (applyMovie film7 mPosterOnly) :=
  enrich_idempotent clientPoster film7 (applyMovie film7 mPosterOnly) "k" rfl rfl
    (fun _ _ _ _ _ h => nomatch h)

/-- Claim C4 (counterexample): in the search branch a not-found status is NOT
treated as an empty result — a 404 search response raises the external-API
error, contradicting the claimed "error iff neither success nor not-found". -/
theorem enrich_search_404_raises :
    (clientSearch404.search filmNoId.title (yearParam filmNoId.year) "k").status_code = 404 ∧
    enrich_film_with_tmdb clientSearch404 filmNoId "k" = .error ⟨"TMDB search error: 404"⟩ :=
  ⟨rfl, rfl⟩

/-- Claim C4 (amended): the external-API error, carrying the status code in
its message, is raised iff the ID-lookup response (when a nonzero ID is
known) has a status other than 200 and 404, or the search response
(otherwise) has a status other than 200; a 404 ID lookup and an empty 200
search result both return the original film unchanged. -/
theorem enrich_error_characterization (client : TMDBClient) (film : Film) (key : String) :
    (∀ i, film.tmdb_id = some i → i ≠ 0 →
      (((client.movieById i key).status_code = 404 →
          enrich_film_with_tmdb client film key = .ok film) ∧
       ((client.movieById i key).status_code ≠ 404 → (client.movieById i key).status_code ≠ 200 →
          enrich_film_with_tmdb client film key =
            .error ⟨"TMDB API error: " ++ toString (client.movieById i key).status_code⟩) ∧
       ((∃ e, enrich_film_with_tmdb client film key = .error e) ↔
          ((client.movieById i key).status_code ≠ 200 ∧
           (client.movieById i key).status_code ≠ 404)))) ∧
    ((film.tmdb_id = none ∨ film.tmdb_id = some 0) →
      (((client.search film.title (yearParam film.year) key).status_code ≠ 200 →
          enrich_film_with_tmdb client film key =
            .error ⟨"TMDB search error: " ++
              toString (client.search film.title (yearParam film.year) key).status_code⟩) ∧
       ((∃ e, enrich_film_with_tmdb client film key = .error e) ↔
          (client.search film.title (yearParam film.year) key).status_code ≠ 200) ∧
       ((client.search film.title (yearParam film.year) key).status_code = 200 →
          (client.search film.title (yearParam film.year) key).body = [] →
          enrich_film_with_tmdb client film key = .ok film))) := by
  constructor
  · intro i hi hi0
    have hresolve : resolveMovie client film key = _fetch_movie_by_id client i key := by
      simp [resolveMovie, hi, hi0]
    by_cases h404 : (client.movieById i key).status_code = 404
    · refine ⟨fun _ => ?_, fun hn _ => absurd h404 hn, ?_⟩
      · simp [enrich_film_with_tmdb, hresolve, _fetch_movie_by_id, h404]
      · simp [enrich_film_with_tmdb, hresolve, _fetch_movie_by_id, h404]
    · by_cases h200 : (client.movieById i key).status_code = 200
      · refine ⟨fun h => absurd h h404, fun _ hn => absurd h200 hn, ?_⟩
        simp [enrich_film_with_tmdb, hresolve, _fetch_movie_by_id, h404, h200]
      · refine ⟨fun h => absurd h h404, fun _ _ => ?_, ?_⟩
        · simp [enrich_film_with_tmdb, hresolve, _fetch_movie_by_id, h404, h200]
        · simp [enrich_film_with_tmdb, hresolve, _fetch_movie_by_id, h404, h200]
  · intro hfid
    have hresolve : resolveMovie client film key =
        _search_movie client film.title (some film.year) key := by
      rcases hfid with h | h <;> simp [resolveMovie, h]
    by_cases h200 : (client.search film.title (yearParam film.year) key).status_code = 200
    · refine ⟨fun hn => absurd h200 hn, ?_, fun _ hbody => ?_⟩
      · cases hh : (client.search film.title (yearParamOpt (some film.year)) key).body.head? with
        | none =>
          simp [enrich_film_with_tmdb, hresolve, _search_movie, yearParam] at h200 ⊢
          simp [h200, hh]
        | some m =>
          simp [enrich_film_with_tmdb, hresolve, _search_movie, yearParam] at h200 ⊢
          simp [h200, hh]
      · have hbody2 : (client.search film.title (yearParamOpt (some film.year)) key).body = [] := hbody
        simp [enrich_film_with_tmdb, hresolve, _search_movie, yearParam] at h200 ⊢
        simp [h200, hbody2]
    · refine ⟨fun _ => ?_, ?_, fun h => absurd h h200⟩
      · simp [enrich_film_with_tmdb, hresolve, _search_movie, yearParam] at h200 ⊢
        simp [h200]
      · simp [enrich_film_with_tmdb, hresolve, _search_movie, yearParam] at h200 ⊢
        simp [h200]

/-- Witness for C4 (amended): a 404 ID lookup returns the original film
unchanged and raises nothing. -/
theorem enrich_error_characterization_witness :
    enrich_film_with_tmdb clientById404 film7 "k" = .ok film7 :=
  ((enrich_error_characterization clientById404 film7 "k").1 7 rfl (by decide)).1 rfl

/-- Claim C5 (counterexample): the token `rated-0` parses to a present rating
of `0.0` stars, not to an absent rating. -/
theorem extract_rating_rated0_present : _extract_rating rowRated0 = some 0 ∧
    _extract_rating rowRated0 ≠ none := by
  have h0 : _extract_rating rowRated0 = some (((0 : Int) : ℚ) / 2) := rfl
  have hv : (((0 : Int) : ℚ) / 2) = 0 := by norm_num
  rw [h0, hv]
  exact ⟨rfl, by simp⟩

/-- Claim C5 (amended): the first parsable `rated-<n>` token of the selected
rating span yields `n / 2` stars (including `n = 0`); when no token parses the
rating is absent, with no error; `rated-7` and `rated-10` are the half-star
examples `3.5` and `5.0`. -/
theorem extract_rating_characterization (row span : Node) (classes : List String)
    (h1 : selectOne isRatingSpan row = some span) (h2 : span.classesOf = some classes) :
    (∀ n : Int, firstRated classes = some n → _extract_rating row = some ((n : ℚ) / 2)) ∧
    (firstRated classes = none → _extract_rating row = none) ∧
    ((7 : ℚ) / 2 = 3.5 ∧ (10 : ℚ) / 2 = 5) := by
  refine ⟨?_, ?_, by norm_num, by norm_num⟩
  · intro n hn
    simp [_extract_rating, h1, h2, hn]
  · intro hn
    simp [_extract_rating, h1, h2, hn]

/-- Witness for C5 (amended): a `rated-7` span yields 7 half-stars over two. -/
theorem extract_rating_characterization_witness :
    _extract_rating rowRated7 = some (((7 : Int) : ℚ) / 2) :=
  (extract_rating_characterization rowRated7 spanRated7 ["rating", "rated-7"] rfl rfl).1 7 rfl

/-- Claim C6 (code behavior at the failing input): a diary row whose rewatch
cell carries neither the `icon-rewatch` marker nor the `icon-status-off`
marker parses with `rewatch = true` — the code only checks for the absence of
`icon-status-off` and never requires the rewatch marker its own comment
describes. -/
theorem parse_diary_row_rewatch_without_marker :
    ("icon-rewatch" ∉ ["col-rewatch"]) ∧ ("icon-status-off" ∉ ["col-rewatch"]) ∧
    (_parse_diary_row rowNoMarkers).map Film.rewatch = some true :=
  ⟨by simp, by simp, rfl⟩

/-- A string passing the Python truthiness test is not empty. -/
theorem strNonempty_ne_empty (t : String) (h : strNonempty t = true) : t ≠ "" := by
  intro he
  rw [he] at h
  exact absurd h (by decide)

/-- The paragraph loop keeps exactly the nonempty, non-spoiler visible texts:
the image-only check is subsumed by the emptiness check. -/
theorem reviewLoop_eq_filter (ps : List Node) :
    reviewLoop ps = (ps.map getTextStrip).filter
      (fun t => strNonempty t && !strStartsWith t spoilerWarning) := by
  induction ps with
  | nil => rfl
  | cons p rest ih =>
    by_cases himg : (hasImg p && !strNonempty (getTextStrip p)) = true
    · have hne : strNonempty (getTextStrip p) = false := by
        have hpair : hasImg p = true ∧ strNonempty (getTextStrip p) = false := by
          simpa using himg
        exact hpair.2
      simp [reviewLoop, himg, hne, ih]
    · by_cases hsp : strStartsWith (getTextStrip p) spoilerWarning = true
      · simp [reviewLoop, himg, hsp, ih]
      · by_cases hne : strNonempty (getTextStrip p) = true
        · simp [reviewLoop, himg, hsp, hne, ih]
        · simp [reviewLoop, himg, hsp, hne, ih]

/-- Joining nonempty parts with a blank-line separator never yields the empty
string. -/
theorem joinParts_ne_empty (l : List String) (hne : l ≠ [])
    (hall : ∀ t ∈ l, strNonempty t = true) : joinParts l ≠ "" := by
  cases l with
  | nil => exact absurd rfl hne
  | cons t rest =>
    cases rest with
    | nil =>
      exact strNonempty_ne_empty t (hall t (by simp))
    | cons t2 r2 =>
      show t ++ "\n\n" ++ joinParts (t2 :: r2) ≠ ""
      intro h
      have hlen := congrArg String.length h
      rw [String.length_append, String.length_append] at hlen
      have h2 : ("\n\n" : String).length = 2 := rfl
      have h0 : ("" : String).length = 0 := rfl
      rw [h2, h0] at hlen
      omega

/-- Claim C7: review extraction returns the qualifying paragraphs' visible
texts (nonempty after stripping markup — which drops image-only paragraphs —
and not starting with the spoiler preamble), in document order, joined with a
blank-line separator; zero qualifying paragraphs give `none`, and the result
is never the empty string. -/
theorem extract_review_characterization (item : RSSItem) (nodes : List Node)
    (h : item.description = some (some nodes)) :
    _extract_review_from_description item =
      (if qualifyingTexts nodes = [] then none
       else some (joinParts (qualifyingTexts nodes))) ∧
    ∀ s, _extract_review_from_description item = some s → s ≠ "" := by
  have hloop : reviewLoop (findAllP nodes) = qualifyingTexts nodes :=
    reviewLoop_eq_filter (findAllP nodes)
  have hmain : _extract_review_from_description item =
      (if qualifyingTexts nodes = [] then none
       else some (joinParts (qualifyingTexts nodes))) := by
    simp only [_extract_review_from_description, h, hloop]
    cases hq : qualifyingTexts nodes with
    | nil => simp
    | cons a l => simp
  refine ⟨hmain, ?_⟩
  intro s hs
  rw [hmain] at hs
  by_cases hq : qualifyingTexts nodes = []
  · rw [if_pos hq] at hs
    cases hs
  · rw [if_neg hq] at hs
    injection hs with hs2
    subst hs2
    apply joinParts_ne_empty _ hq
    intro t ht
    have ht2 : t ∈ ((findAllP nodes).map getTextStrip).filter
        (fun t => strNonempty t && !strStartsWith t spoilerWarning) := ht
    have hp := (List.mem_filter.mp ht2).2
    have hpair : strNonempty t = true ∧ (!strStartsWith t spoilerWarning) = true := by
      simpa using hp
    exact hpair.1

/-- Witness for C7: an image-only paragraph followed by one text paragraph
extracts exactly that text. -/
theorem extract_review_characterization_witness :
    _extract_review_from_description itemArrival = some "A quiet masterpiece." := by
  have h := (extract_review_characterization itemArrival descArrival rfl).1
  rw [h]
  rfl

/-- Claim C8 (counterexample): a malformed rating value in a feed item is NOT
absorbed — the uncaught conversion error escalates out of the whole parse
call. -/
theorem rss_malformed_rating_escalates :
    _parse_rss_item itemBadRating = .error (.valueError "abc") ∧
    parse_rss_feed respBadRating = .error (.valueError "abc") :=
  ⟨rfl, rfl⟩

/-- Claim C8 (amended): diary rows absorb malformations — a transport-OK
diary page always parses, and a parsed row's rating and watched date are
exactly the absorbing extractors' outputs — while in a feed item a malformed
rating value or watched-date value escalates as an error out of the parse. -/
theorem parse_malformation_propagation :
    (∀ resp : HResp Node, resp.status_code < 400 → ∃ r, parse_diary_page resp = .ok r) ∧
    (∀ row f, _parse_diary_row row = some f →
       f.rating = _extract_rating row ∧ f.watched_date = _extract_watched_date row) ∧
    (∀ (item : RSSItem) g t ys y rs, item.guid = some (some g) →
       item.filmTitle = some (some t) → item.filmYear = some (some ys) →
       pyInt? ys = some y → item.memberRating = some (some rs) → rs ≠ "" →
       pyFloat? rs = none → _parse_rss_item item = .error (.valueError rs)) ∧
    (∀ (item : RSSItem) g t ys y ds, item.guid = some (some g) →
       item.filmTitle = some (some t) → item.filmYear = some (some ys) →
       pyInt? ys = some y → item.memberRating = none →
       item.watchedDate = some (some ds) → ds ≠ "" →
       isoDate? ds = none → _parse_rss_item item = .error (.valueError ds)) := by
  refine ⟨?_, ?_, ?_, ?_⟩
  · intro resp h
    have h429 : resp.status_code ≠ 429 := by omega
    have h400 : ¬ 400 ≤ resp.status_code := by omega
    simp only [parse_diary_page, h429, if_false, h400, if_neg]
    exact ⟨_, rfl⟩
  · intro row f h
    simp only [_parse_diary_row] at h
    split at h
    · exact absurd h (by simp)
    · split at h
      · exact absurd h (by simp)
      · split at h
        · exact absurd h (by simp)
        · split at h
          · exact absurd h (by simp)
          · injection h with h2
            subst h2
            exact ⟨rfl, rfl⟩
  · intro item g t ys y rs hg ht hy hyi hr hrne hrf
    simp [_parse_rss_item, hg, ht, hy, hyi, hr, hrne, hrf]
  · intro item g t ys y ds hg ht hy hyi hr hd hdne hdf
    simp [_parse_rss_item, hg, ht, hy, hyi, hr, hd, hdne, hdf]

/-- Witness for C8 (amended): an OK diary page response parses without any
error. -/
theorem parse_malformation_propagation_witness :
    ∃ r, parse_diary_page respEmptyPage = .ok r :=
  parse_malformation_propagation.1 respEmptyPage (by decide)

/-- Claim C9 (counterexample): a diary page 429 response carrying
`Retry-After: 120` still raises the rate-limit condition with the default of
60 — the diary fetch never reads the header, so the condition does not carry
the available retry-after duration as the claim requires. -/
theorem diary_429_ignores_retry_after :
    headerGet respDiary429Header.headers "Retry-After" = some "120" ∧
    parse_diary_page respDiary429Header = .error (.rateLimit 60) ∧
    (60 : Int) ≠ 120 :=
  ⟨rfl, rfl, by decide⟩

/-- Claim C9 (amended): a 429 response from either Letterboxd source raises
the same distinguishable rate-limit condition; the feed fetch carries the
parsed `Retry-After` header value when present and 60 when absent, while the
diary fetch always carries the constructor's default, whatever headers the
response has. -/
theorem rate_limit_condition (resp : HResp (Except String (List RSSItem))) (resp2 : HResp Node) :
    (resp.status_code = 429 →
      ((∀ s n, headerGet resp.headers "Retry-After" = some s → pyInt? s = some n →
          parse_rss_feed resp = .error (.rateLimit n)) ∧
       (headerGet resp.headers "Retry-After" = none →
          parse_rss_feed resp = .error (.rateLimit 60)))) ∧
    (resp2.status_code = 429 → parse_diary_page resp2 = .error (.rateLimit defaultRetryAfter)) := by
  constructor
  · intro h
    constructor
    · intro s n hs hn
      simp [parse_rss_feed, h, hs, hn]
    · intro hs
      simp [parse_rss_feed, h, hs]
  · intro h
    simp [parse_diary_page, h]

/-- Witness for C9: a feed 429 with `Retry-After: 120` carries 120; a diary
429 carries the default of 60. -/
theorem rate_limit_condition_witness :
    parse_rss_feed respFeed429 = .error (.rateLimit 120) ∧
    parse_diary_page respDiary429 = .error (.rateLimit 60) :=
  ⟨((rate_limit_condition respFeed429 respDiary429).1 rfl).1 "120" 120 rfl rfl,
   (rate_limit_condition respFeed429 respDiary429).2 rfl⟩

/-- Claim C10: `parse_diary_page` signals `has_more = true` exactly when the
page's parsed film list is nonempty. -/
theorem has_more_iff_nonempty (resp : HResp Node) (films : List Film) (hm : Bool)
    (h : parse_diary_page resp = .ok (films, hm)) : hm = true ↔ films ≠ [] := by
  by_cases h429 : resp.status_code = 429
  · simp [parse_diary_page, h429] at h
  · by_cases h400 : 400 ≤ resp.status_code
    · simp [parse_diary_page, h429, h400] at h
    · simp only [parse_diary_page, h429, if_false, h400, if_neg] at h
      injection h with h2
      rw [Prod.mk.injEq] at h2
      obtain ⟨hf, hb⟩ := h2
      subst hf
      subst hb
      simp [List.length_pos]

/-- Witness for C10: a page with one well-formed row reports more pages. -/
theorem has_more_iff_nonempty_witness : true = true ↔ [filmFull] ≠ ([] : List Film) :=
  has_more_iff_nonempty respOneRow [filmFull] true rfl
